import Mathlib

/-!
Shallow embedding of the `PermanentDictionary` class of
`src/scripts/script03.js`: a client-side key/value persistence layer backed
by IndexedDB.  The embedding models

* JavaScript values storable via structured clone (`JSValue`), with the
  distinguished `undefined` value;
* an object store as a key-sorted association list (IndexedDB stores
  records in ascending key order);
* a database connection (`Conn`) with the `closed` flag set by `close()`;
* the environment visible to `indexedDB.open` (`IDBEnv`): whether the
  database exists and at which version/with which object stores, plus the
  externally-determined failure conditions (open error, blocked upgrade,
  ineffective schema creation);
* every public operation of the class, each parameterised by the outcome of
  its per-operation transaction (success, request error, transaction
  error), since those outcomes are decided by the environment at run time.

Mutating operations return the resulting store state together with the
settlement of the returned promise (`Except.ok` = resolved,
`Except.error` = rejected); read operations return only the settlement.
-/

/-- JavaScript values as storable via the structured-clone algorithm.
`undef` is JavaScript `undefined` (storable in IndexedDB, and also the
value of a `get` request whose key is absent). -/
inductive JSValue where
  | undef : JSValue
  | null : JSValue
  | bool : Bool → JSValue
  | num : Int → JSValue
  | str : String → JSValue
  | pair : JSValue → JSValue → JSValue
deriving DecidableEq, Repr

/-- An IndexedDB object store: records as a key-sorted association list
(IndexedDB keeps records in ascending key order; keys here are strings,
as in the repository: URLs and composite book/chapter/sentence codes). -/
abbrev ObjectStore := List (String × JSValue)

/-- `store.put(value, key)`: insert or overwrite, keeping ascending key
order. -/
def putEntry (k : String) (v : JSValue) : ObjectStore → ObjectStore
  | [] => [(k, v)]
  | (k2, v2) :: rest =>
    if k < k2 then (k, v) :: (k2, v2) :: rest
    else if k = k2 then (k, v) :: rest
    else (k2, v2) :: putEntry k v rest

/-- `store.delete(key)`: remove the record with key `k`, if present. -/
def delEntry (k : String) : ObjectStore → ObjectStore
  | [] => []
  | (k2, v2) :: rest => if k = k2 then rest else (k2, v2) :: delEntry k rest

/-- Record lookup by key. -/
def lookupEntry (k : String) : ObjectStore → Option JSValue
  | [] => none
  | (k2, v2) :: rest => if k = k2 then some v2 else lookupEntry k rest

/-- Result of a `store.get(key)` request: the stored value, or `undefined`
when no record matches the key. -/
def getRequestResult (s : ObjectStore) (k : String) : JSValue :=
  match lookupEntry k s with
  | none => JSValue.undef
  | some v => v

/-- Result of a `store.getKey(key)` request: the key of the matching
record, or `undefined` (here `none`) when no record matches. -/
def getKeyRequestResult (s : ObjectStore) (k : String) : Option String :=
  match lookupEntry k s with
  | none => none
  | some _ => some k

/-- The cursor loop of `entries()`: starting from `store.openCursor()`,
push `[cursor.key, cursor.value]` and `cursor.continue()` until the cursor
is exhausted, visiting records in underlying-store (ascending key) order. -/
def cursorCollect : ObjectStore → List (String × JSValue)
  | [] => []
  | (k, v) :: rest => (k, v) :: cursorCollect rest

/-- A live connection to a database, as held in `this.db`.  `closed` is set
by `db.close()`; a closed connection refuses to create transactions
(`db.transaction` throws `InvalidStateError`). -/
structure Conn where
  version : Nat
  stores : List String
  closed : Bool
deriving DecidableEq, Repr

/-- The `onversionchange` handler registered in `req.onsuccess`: another
connection elsewhere triggered a version change, so this connection calls
`db.close()` on itself. -/
def onVersionChange (c : Conn) : Conn := { c with closed := true }

/-- Outcome of the write transaction backing one mutating operation,
decided by the environment: success (`tx.oncomplete`), a request error
(`req.onerror`), or a transaction error after request success
(`tx.onerror`, e.g. quota exceeded at commit time). -/
inductive TxOutcome where
  | ok : TxOutcome
  | reqError : String → TxOutcome
  | txError : String → TxOutcome
deriving DecidableEq, Repr

/-- Outcome of the read request backing one read operation. -/
inductive ErrOutcome where
  | ok : ErrOutcome
  | fail : String → ErrOutcome
deriving DecidableEq, Repr

/-- The error message with which `db.transaction` throws on a closed
connection. -/
def closedConnError : String :=
  "InvalidStateError: the connection is closed"

/-- Body of `set(key, value)` after the initialization gate: open a
readwrite transaction (throws if the connection is closed), `put`, await
the request, then await `tx.oncomplete`/`tx.onerror`.  There is no
try/catch: any failure rejects the returned promise.  Returns the
resulting store state and the promise settlement. -/
def setBody (c : Conn) (s : ObjectStore) (k : String) (v : JSValue)
    (out : TxOutcome) : ObjectStore × Except String Unit :=
  if c.closed then (s, Except.error closedConnError)
  else
    match out with
    | TxOutcome.ok => (putEntry k v s, Except.ok ())
    | TxOutcome.reqError e => (s, Except.error e)
    | TxOutcome.txError e => (s, Except.error e)

/-- Body of `get(key)` after the initialization gate: in a try/catch, open
a readonly transaction, `get`, and return
`result === undefined ? undefined : result`; any caught error resolves
with `undefined`. -/
def getBody (c : Conn) (s : ObjectStore) (k : String) (out : ErrOutcome) :
    Except String JSValue :=
  if c.closed then Except.ok JSValue.undef
  else
    match out with
    | ErrOutcome.ok =>
      let result := getRequestResult s k
      Except.ok (if result = JSValue.undef then JSValue.undef else result)
    | ErrOutcome.fail _ => Except.ok JSValue.undef

/-- Body of `delete(key)` after the initialization gate: like `set` but the
whole body sits in a try/catch whose handler logs and returns `undefined`,
so the promise always resolves; on failure the transaction aborts and the
store is unchanged. -/
def deleteBody (c : Conn) (s : ObjectStore) (k : String) (out : TxOutcome) :
    ObjectStore × Except String JSValue :=
  if c.closed then (s, Except.ok JSValue.undef)
  else
    match out with
    | TxOutcome.ok => (delEntry k s, Except.ok JSValue.undef)
    | TxOutcome.reqError _ => (s, Except.ok JSValue.undef)
    | TxOutcome.txError _ => (s, Except.ok JSValue.undef)

/-- Body of `clear()` after the initialization gate: like `delete`, with
`store.clear()`; the try/catch makes the promise always resolve. -/
def clearBody (c : Conn) (s : ObjectStore) (out : TxOutcome) :
    ObjectStore × Except String JSValue :=
  if c.closed then (s, Except.ok JSValue.undef)
  else
    match out with
    | TxOutcome.ok => ([], Except.ok JSValue.undef)
    | TxOutcome.reqError _ => (s, Except.ok JSValue.undef)
    | TxOutcome.txError _ => (s, Except.ok JSValue.undef)

/-- Body of `has(key)` after the initialization gate: `getKey` in a
try/catch; on success returns `result === undefined ? false : true`, on a
caught error returns `undefined` (not `false`). -/
def hasBody (c : Conn) (s : ObjectStore) (k : String) (out : ErrOutcome) :
    Except String JSValue :=
  if c.closed then Except.ok JSValue.undef
  else
    match out with
    | ErrOutcome.ok =>
      match getKeyRequestResult s k with
      | none => Except.ok (JSValue.bool false)
      | some _ => Except.ok (JSValue.bool true)
    | ErrOutcome.fail _ => Except.ok JSValue.undef

/-- Body of `keys()` after the initialization gate: `getAllKeys` in a
try/catch; on success the array of keys in ascending order, on a caught
error `undefined` (not an empty array). -/
def keysBody (c : Conn) (s : ObjectStore) (out : ErrOutcome) :
    Except String (Option (List String)) :=
  if c.closed then Except.ok none
  else
    match out with
    | ErrOutcome.ok => Except.ok (some (s.map Prod.fst))
    | ErrOutcome.fail _ => Except.ok none

/-- Body of `values()` after the initialization gate: `getAll` in a
try/catch; on success the array of values in ascending key order, on a
caught error `undefined` (not an empty array). -/
def valuesBody (c : Conn) (s : ObjectStore) (out : ErrOutcome) :
    Except String (Option (List JSValue)) :=
  if c.closed then Except.ok none
  else
    match out with
    | ErrOutcome.ok => Except.ok (some (s.map Prod.snd))
    | ErrOutcome.fail _ => Except.ok none

/-- Body of `entries()` after the initialization gate: the cursor loop in a
try/catch; on success the accumulated `[key, value]` pairs, on a caught
error `undefined` (not an empty array). -/
def entriesBody (c : Conn) (s : ObjectStore) (out : ErrOutcome) :
    Except String (Option (List (String × JSValue))) :=
  if c.closed then Except.ok none
  else
    match out with
    | ErrOutcome.ok => Except.ok (some (cursorCollect s))
    | ErrOutcome.fail _ => Except.ok none

/-- The environment visible to `indexedDB.open` for one database name:
whether the database currently exists (version, object-store names), and
the externally-determined failure conditions.  `blocked` models another
open connection preventing a version change; `failOpen` models an outright
open failure (quota, disabled storage); `brokenSchema` models an
environment in which `createObjectStore` does not take effect, exercising
the fatal still-missing-after-upgrade path. -/
structure IDBEnv where
  existing : Option (Nat × List String)
  blocked : Bool
  failOpen : Bool
  brokenSchema : Bool
deriving DecidableEq, Repr

/-- The message of the rejection installed by `req.onblocked`. -/
def blockedError : String :=
  "Database upgrade blocked: another open connection is preventing the version change. Close other tabs or connections."

/-- The fallback message of the rejection installed by `req.onerror`. -/
def openFailedError : String := "IndexedDB open failed"

/-- The message of the fatal error thrown when the object store is still
missing after the upgrade open. -/
def upgradeFailedError (storeName : String) : String :=
  "Failed to create object store \"" ++ storeName ++ "\" even after upgrade."

/-- The `onupgradeneeded` handler of `openDB`: create the object store if
it is absent (ineffective when the environment has a broken schema). -/
def upgradeStores (env : IDBEnv) (storeName : String) (ss : List String) :
    List String :=
  if storeName ∈ ss then ss
  else if env.brokenSchema then ss
  else ss ++ [storeName]

/-- The local `openDB(version)` of `_ensureStore`, with IndexedDB open
semantics: without a version it opens the current version (creating the
database at version 1 if absent, running `onupgradeneeded`); with a
version above the current one it runs the upgrade, which another open
connection can block (`req.onblocked` rejects); requesting a version below
the current one is an error; `req.onerror` rejects with the request error.
On success the connection has its `onversionchange` self-close handler
registered and is open. -/
def openDB (env : IDBEnv) (storeName : String) (version : Option Nat) :
    Except String (IDBEnv × Conn) :=
  if env.failOpen then Except.error openFailedError
  else
    match version, env.existing with
    | none, none =>
      let ss := upgradeStores env storeName []
      Except.ok ({ env with existing := some (1, ss) }, ⟨1, ss, false⟩)
    | none, some (v, ss) => Except.ok (env, ⟨v, ss, false⟩)
    | some w, none =>
      let ss := upgradeStores env storeName []
      Except.ok ({ env with existing := some (w, ss) }, ⟨w, ss, false⟩)
    | some w, some (v, ss) =>
      if w < v then Except.error "VersionError"
      else if w = v then Except.ok (env, ⟨v, ss, false⟩)
      else if env.blocked then Except.error blockedError
      else
        let ss2 := upgradeStores env storeName ss
        Except.ok ({ env with existing := some (w, ss2) }, ⟨w, ss2, false⟩)

/-- `_ensureStore(storeName)`: open without a version; if the connection
contains the store, return it; otherwise close it, re-open at
`db.version + 1` (creating the store in `onupgradeneeded`), and if the
store is still missing, close and throw the fatal error. -/
def ensureStore (env : IDBEnv) (storeName : String) :
    Except String (IDBEnv × Conn) :=
  match openDB env storeName none with
  | Except.error e => Except.error e
  | Except.ok (env1, db) =>
    if storeName ∈ db.stores then Except.ok (env1, db)
    else
      match openDB env1 storeName (some (db.version + 1)) with
      | Except.error e => Except.error e
      | Except.ok (env2, db2) =>
        if storeName ∈ db2.stores then Except.ok (env2, db2)
        else Except.error (upgradeFailedError storeName)

/-- A `PermanentDictionary` instance: the store name bound at
construction, and the settled one-time initialization promise
(`this._initPromise`, which resolves with the connection stored in
`this.db` or rejects with the `_ensureStore` failure).  It is computed
once in the constructor and never re-run. -/
structure PermanentDictionary where
  storeName : String
  initResult : Except String Conn
deriving Repr

/-- `new PermanentDictionary(storeName)` run to settlement of
`this._initPromise` in environment `env`. -/
def mkPermanentDictionary (env : IDBEnv) (storeName : String) :
    PermanentDictionary :=
  { storeName := storeName
    initResult := (ensureStore env storeName).map Prod.snd }

/-- `set(key, value)`: await `this._initPromise` (rejection propagates),
then run the body. -/
def PermanentDictionary.set (d : PermanentDictionary) (s : ObjectStore)
    (k : String) (v : JSValue) (out : TxOutcome) :
    ObjectStore × Except String Unit :=
  match d.initResult with
  | Except.error e => (s, Except.error e)
  | Except.ok c => setBody c s k v out

/-- `get(key)`: await `this._initPromise` (rejection propagates, the await
is outside the try/catch), then run the body. -/
def PermanentDictionary.get (d : PermanentDictionary) (s : ObjectStore)
    (k : String) (out : ErrOutcome) : Except String JSValue :=
  match d.initResult with
  | Except.error e => Except.error e
  | Except.ok c => getBody c s k out

/-- `delete(key)`: await `this._initPromise`, then run the body. -/
def PermanentDictionary.delete (d : PermanentDictionary) (s : ObjectStore)
    (k : String) (out : TxOutcome) : ObjectStore × Except String JSValue :=
  match d.initResult with
  | Except.error e => (s, Except.error e)
  | Except.ok c => deleteBody c s k out

/-- `clear()`: await `this._initPromise`, then run the body. -/
def PermanentDictionary.clear (d : PermanentDictionary) (s : ObjectStore)
    (out : TxOutcome) : ObjectStore × Except String JSValue :=
  match d.initResult with
  | Except.error e => (s, Except.error e)
  | Except.ok c => clearBody c s out

/-- `has(key)`: await `this._initPromise`, then run the body. -/
def PermanentDictionary.has (d : PermanentDictionary) (s : ObjectStore)
    (k : String) (out : ErrOutcome) : Except String JSValue :=
  match d.initResult with
  | Except.error e => Except.error e
  | Except.ok c => hasBody c s k out

/-- `keys()`: await `this._initPromise`, then run the body. -/
def PermanentDictionary.keys (d : PermanentDictionary) (s : ObjectStore)
    (out : ErrOutcome) : Except String (Option (List String)) :=
  match d.initResult with
  | Except.error e => Except.error e
  | Except.ok c => keysBody c s out

/-- `values()`: await `this._initPromise`, then run the body. -/
def PermanentDictionary.values (d : PermanentDictionary) (s : ObjectStore)
    (out : ErrOutcome) : Except String (Option (List JSValue)) :=
  match d.initResult with
  | Except.error e => Except.error e
  | Except.ok c => valuesBody c s out

/-- `entries()`: await `this._initPromise`, then run the body. -/
def PermanentDictionary.entries (d : PermanentDictionary) (s : ObjectStore)
    (out : ErrOutcome) : Except String (Option (List (String × JSValue))) :=
  match d.initResult with
  | Except.error e => Except.error e
  | Except.ok c => entriesBody c s out

/-- The observable events of one `set` call, in order. -/
inductive SetEvent where
  | putRequest : SetEvent
  | putSuccess : SetEvent
  | putFailure : SetEvent
  | txCommit : SetEvent
  | txAbort : SetEvent
  | resolveP : SetEvent
  | rejectP : SetEvent
deriving DecidableEq, Repr

/-- The event trace of the body of `set` (after the initialization gate),
read off its await structure: `store.put` is issued, then
`_reqToPromise(req)` is awaited (`req.onsuccess` / `req.onerror`), then a
promise settled by `tx.oncomplete` / `tx.onerror` is awaited, and only
then does the async function resolve. -/
def setEventTrace (out : TxOutcome) : List SetEvent :=
  match out with
  | TxOutcome.ok =>
    [SetEvent.putRequest, SetEvent.putSuccess, SetEvent.txCommit,
      SetEvent.resolveP]
  | TxOutcome.reqError _ =>
    [SetEvent.putRequest, SetEvent.putFailure, SetEvent.rejectP]
  | TxOutcome.txError _ =>
    [SetEvent.putRequest, SetEvent.putSuccess, SetEvent.txAbort,
      SetEvent.rejectP]

/-- A concrete healthy environment: no database yet, no fault condition. -/
def envFresh : IDBEnv :=
  { existing := none, blocked := false, failOpen := false,
    brokenSchema := false }

/-- A concrete successfully initialized instance over `envFresh`. -/
def dictEx : PermanentDictionary := mkPermanentDictionary envFresh "sounds"

/-- The connection `dictEx` holds. -/
def connEx : Conn := ⟨1, ["sounds"], false⟩

/-- A concrete environment with an existing database at version 2 that
lacks the target object store. -/
def envUp : IDBEnv :=
  { existing := some (2, ["other"]), blocked := false, failOpen := false,
    brokenSchema := false }

/-- Like `envUp`, but another connection blocks the version change. -/
def envBlocked : IDBEnv :=
  { existing := some (2, ["other"]), blocked := true, failOpen := false,
    brokenSchema := false }

/-- An instance whose initialization failed (blocked upgrade). -/
def dictFailed : PermanentDictionary := mkPermanentDictionary envBlocked "sounds"

/-- Decidable equality of promise settlements, for concrete evaluation. -/
instance {ε α : Type} [DecidableEq ε] [DecidableEq α] : DecidableEq (Except ε α) := fun a b =>
  match a, b with
  | Except.ok x, Except.ok y =>
    if h : x = y then isTrue (by rw [h]) else isFalse (by intro hc; cases hc; exact h rfl)
  | Except.error x, Except.error y =>
    if h : x = y then isTrue (by rw [h]) else isFalse (by intro hc; cases hc; exact h rfl)
  | Except.ok _, Except.error _ => isFalse (by intro hc; cases hc)
  | Except.error _, Except.ok _ => isFalse (by intro hc; cases hc)

/-! ### Helper lemmas about the object-store operations -/

theorem lookup_putEntry_self (k : String) (v : JSValue) (s : ObjectStore) :
    lookupEntry k (putEntry k v s) = some v := by
  induction s with
  | nil => simp [putEntry, lookupEntry]
  | cons hd tl ih =>
    obtain ⟨k2, v2⟩ := hd
    by_cases h1 : k < k2
    · simp [putEntry, lookupEntry, h1]
    · by_cases h2 : k = k2
      · simp [putEntry, lookupEntry, h1, h2]
      · simp [putEntry, lookupEntry, h1, h2, ih]

theorem putEntry_perm (k : String) (v : JSValue) (s : ObjectStore)
    (h : k ∉ s.map Prod.fst) :
    List.Perm (putEntry k v s) ((k, v) :: s) := by
  induction s with
  | nil => simp [putEntry]
  | cons hd tl ih =>
    obtain ⟨k2, v2⟩ := hd
    simp only [List.map_cons, List.mem_cons] at h
    push_neg at h
    by_cases h1 : k < k2
    · simp [putEntry, h1]
    · rw [putEntry]
      simp only [h1, if_false, h.1, if_neg]
      exact ((ih h.2).cons (k2, v2)).trans (List.Perm.swap (k, v) (k2, v2) tl)

theorem mem_keys_putEntry (a k : String) (v : JSValue) (s : ObjectStore) :
    a ∈ (putEntry k v s).map Prod.fst ↔ a = k ∨ a ∈ s.map Prod.fst := by
  induction s with
  | nil => simp [putEntry]
  | cons hd tl ih =>
    obtain ⟨k2, v2⟩ := hd
    by_cases h1 : k < k2
    · simp [putEntry, h1]
    · by_cases h2 : k = k2
      · subst h2
        simp [putEntry, h1]
        try tauto
      · simp [putEntry, h1, h2, ih]
        try tauto

theorem cursorCollect_eq (s : ObjectStore) : cursorCollect s = s := by
  induction s with
  | nil => rfl
  | cons hd tl ih => simp [cursorCollect, ih]

/-! ### Claim theorems -/

/-- C1: on a successfully initialized Permanent Store, once `set(k, v)` has
resolved, a subsequent `get(k)` resolves with a value deep-equal to `v`,
and `has(k)` resolves `true`, for every key and every storable value. -/
theorem pd_set_get_roundtrip (d : PermanentDictionary) (c : Conn)
    (s : ObjectStore) (k : String) (v : JSValue)
    (hinit : d.initResult = Except.ok c) (hopen : c.closed = false) :
    (d.set s k v TxOutcome.ok).2 = Except.ok () ∧
    d.get (d.set s k v TxOutcome.ok).1 k ErrOutcome.ok = Except.ok v ∧
    d.has (d.set s k v TxOutcome.ok).1 k ErrOutcome.ok
      = Except.ok (JSValue.bool true) := by
  simp only [PermanentDictionary.set, PermanentDictionary.get,
    PermanentDictionary.has, hinit, setBody, getBody, hasBody, hopen,
    Bool.false_eq_true, if_false]
  refine ⟨trivial, ?_, ?_⟩
  · simp only [getRequestResult, lookup_putEntry_self]
    by_cases hv : v = JSValue.undef
    · subst hv; simp
    · simp [hv]
  · simp [getKeyRequestResult, lookup_putEntry_self]

/-- Witness for C1 at the spec's own scenario inputs. -/
theorem pd_set_get_roundtrip_witness :
    dictEx.initResult = Except.ok connEx ∧ connEx.closed = false ∧
    ((dictEx.set [] "B001C000S000" (JSValue.str "AAAA==") TxOutcome.ok).2
        = Except.ok () ∧
      dictEx.get (dictEx.set [] "B001C000S000" (JSValue.str "AAAA==")
          TxOutcome.ok).1 "B001C000S000" ErrOutcome.ok
        = Except.ok (JSValue.str "AAAA==") ∧
      dictEx.has (dictEx.set [] "B001C000S000" (JSValue.str "AAAA==")
          TxOutcome.ok).1 "B001C000S000" ErrOutcome.ok
        = Except.ok (JSValue.bool true)) :=
  ⟨by decide, by decide,
    pd_set_get_roundtrip dictEx connEx [] "B001C000S000"
      (JSValue.str "AAAA==") (by decide) (by decide)⟩

/-- C2 counterexample: resolution does NOT imply durable commit for every
mutating operation.  On an initialized Permanent Store, after a
transaction error during `delete` (and during `clear`) — a transaction
that aborted, committing nothing, as the unchanged store shows — the
returned future nevertheless resolves with `undefined`. -/
theorem pd_mutation_resolution_no_commit_cex :
    PermanentDictionary.delete dictEx [("b", JSValue.str "y")] "b"
        (TxOutcome.txError "AbortError")
      = ([("b", JSValue.str "y")], Except.ok JSValue.undef) ∧
    PermanentDictionary.clear dictEx [("b", JSValue.str "y")]
        (TxOutcome.txError "AbortError")
      = ([("b", JSValue.str "y")], Except.ok JSValue.undef) := by
  exact ⟨by decide, by decide⟩

/-- C2 amended: on an initialized Permanent Store, the future returned by
`set` resolves only after the write transaction has fully committed:
resolution is equivalent to transaction commit, in the event trace of
`set` the commit event strictly precedes the resolution event, and after
a mere request success with a failing commit the future does not resolve.
For `set` alone, "resolved" implies "durably committed"; `delete` and
`clear` resolve with `undefined` even when their transaction aborted
without committing (store unchanged). -/
theorem pd_set_resolves_after_commit (d : PermanentDictionary) (c : Conn)
    (s : ObjectStore) (k : String) (v : JSValue) (out : TxOutcome)
    (e : String) (hinit : d.initResult = Except.ok c)
    (hopen : c.closed = false) :
    ((d.set s k v out).2 = Except.ok () ↔ out = TxOutcome.ok) ∧
    (SetEvent.resolveP ∈ setEventTrace out →
      List.indexOf SetEvent.txCommit (setEventTrace out)
        < List.indexOf SetEvent.resolveP (setEventTrace out)) ∧
    (SetEvent.putSuccess ∈ setEventTrace (TxOutcome.txError e) ∧
      SetEvent.resolveP ∉ setEventTrace (TxOutcome.txError e)) ∧
    d.delete s k (TxOutcome.txError e) = (s, Except.ok JSValue.undef) ∧
    d.clear s (TxOutcome.txError e) = (s, Except.ok JSValue.undef) := by
  refine ⟨?_, ?_, ⟨?_, ?_⟩, ?_, ?_⟩
  · simp only [PermanentDictionary.set, hinit, setBody, hopen,
      Bool.false_eq_true, if_false]
    cases out <;> simp
  · cases out with
    | ok => decide
    | reqError a => intro h; simp [setEventTrace] at h
    | txError a => intro h; simp [setEventTrace] at h
  · simp [setEventTrace]
  · simp [setEventTrace]
  · simp [PermanentDictionary.delete, hinit, deleteBody, hopen]
  · simp [PermanentDictionary.clear, hinit, clearBody, hopen]

/-- Witness for the amended C2 at concrete inputs. -/
theorem pd_set_resolves_after_commit_witness :
    dictEx.initResult = Except.ok connEx ∧ connEx.closed = false ∧
    (((dictEx.set [] "k" JSValue.null TxOutcome.ok).2 = Except.ok ()
        ↔ TxOutcome.ok = TxOutcome.ok) ∧
      (SetEvent.resolveP ∈ setEventTrace TxOutcome.ok →
        List.indexOf SetEvent.txCommit (setEventTrace TxOutcome.ok)
          < List.indexOf SetEvent.resolveP (setEventTrace TxOutcome.ok)) ∧
      (SetEvent.putSuccess
          ∈ setEventTrace (TxOutcome.txError "QuotaExceededError") ∧
        SetEvent.resolveP
          ∉ setEventTrace (TxOutcome.txError "QuotaExceededError")) ∧
      dictEx.delete [] "k" (TxOutcome.txError "QuotaExceededError")
        = ([], Except.ok JSValue.undef) ∧
      dictEx.clear [] (TxOutcome.txError "QuotaExceededError")
        = ([], Except.ok JSValue.undef)) :=
  ⟨by decide, by decide,
    pd_set_resolves_after_commit dictEx connEx [] "k" JSValue.null
      TxOutcome.ok "QuotaExceededError" (by decide) (by decide)⟩

/-- C3: initialization opens the database without a version; if the target
collection exists there, that connection is returned unchanged (no
upgrade); otherwise the connection is closed and the database is re-opened
at `currentVersion + 1`, with the collection created during the upgrade
phase (or the blocked rejection raised); and if the collection still does
not exist after this second open, initialization fails fatally.  The
double-open is the only upgrade path: no case performs more than one
version bump. -/
theorem ensureStore_algorithm (env : IDBEnv) (name : String)
    (hfail : env.failOpen = false) :
    (∀ v ss, env.existing = some (v, ss) → name ∈ ss →
      ensureStore env name = Except.ok (env, ⟨v, ss, false⟩)) ∧
    (env.existing = none → env.brokenSchema = false →
      ensureStore env name =
        Except.ok ({ env with existing := some (1, [name]) },
          ⟨1, [name], false⟩)) ∧
    (∀ v ss, env.existing = some (v, ss) → name ∉ ss → env.blocked = true →
      ensureStore env name = Except.error blockedError) ∧
    (∀ v ss, env.existing = some (v, ss) → name ∉ ss →
      env.blocked = false → env.brokenSchema = false →
      ensureStore env name =
        Except.ok ({ env with existing := some (v + 1, ss ++ [name]) },
          ⟨v + 1, ss ++ [name], false⟩)) ∧
    (∀ v ss, env.existing = some (v, ss) → name ∉ ss →
      env.blocked = false → env.brokenSchema = true →
      ensureStore env name = Except.error (upgradeFailedError name)) := by
  have hnlt : ∀ v : Nat, ¬ (v + 1 < v) := by omega
  have hne : ∀ v : Nat, ¬ (v + 1 = v) := by omega
  refine ⟨?_, ?_, ?_, ?_, ?_⟩
  · intro v ss h hm
    simp [ensureStore, openDB, hfail, h, hm]
  · intro h hb
    simp [ensureStore, openDB, upgradeStores, hfail, h, hb]
  · intro v ss h hm hb
    simp [ensureStore, openDB, upgradeStores, hfail, h, hm, hb, hnlt, hne]
  · intro v ss h hm hb hbr
    simp [ensureStore, openDB, upgradeStores, hfail, h, hm, hb, hbr,
      hnlt, hne]
  · intro v ss h hm hb hbr
    simp [ensureStore, openDB, upgradeStores, hfail, h, hm, hb, hbr,
      hnlt, hne]

/-- Witness for C3: an existing version-2 database without the collection
is upgraded by the double-open to version 3 with the collection present. -/
theorem ensureStore_algorithm_witness :
    envUp.failOpen = false ∧
    ensureStore envUp "sounds" =
      Except.ok ({ envUp with existing := some (3, ["other", "sounds"]) },
        ⟨3, ["other", "sounds"], false⟩) :=
  ⟨by decide,
    (ensureStore_algorithm envUp "sounds" (by decide)).2.2.2.1 2 ["other"]
      rfl (by decide) rfl rfl⟩

/-- C7: an initial open blocked by another connection holding an
older-version connection open makes initialization reject with the
descriptive blocked failure; an outright open failure rejects the
initialization future; and once the one-time initialization future is
rejected, every public operation on that instance fails with the same
cause (the stored `initResult` is never recomputed, so initialization is
never retried). -/
theorem pd_init_failure_propagates (env : IDBEnv) (name : String)
    (d : PermanentDictionary) (e : String) (s : ObjectStore) (k : String)
    (w : JSValue) (out : TxOutcome) (rout : ErrOutcome) :
    (∀ v ss, env.failOpen = false → env.existing = some (v, ss) →
      name ∉ ss → env.blocked = true →
      (mkPermanentDictionary env name).initResult
        = Except.error blockedError) ∧
    (env.failOpen = true →
      (mkPermanentDictionary env name).initResult
        = Except.error openFailedError) ∧
    (d.initResult = Except.error e →
      d.set s k w out = (s, Except.error e) ∧
      d.get s k rout = Except.error e ∧
      d.delete s k out = (s, Except.error e) ∧
      d.clear s out = (s, Except.error e) ∧
      d.has s k rout = Except.error e ∧
      d.keys s rout = Except.error e ∧
      d.values s rout = Except.error e ∧
      d.entries s rout = Except.error e) := by
  refine ⟨?_, ?_, ?_⟩
  · intro v ss hfail h hm hb
    have hnlt : ¬ (v + 1 < v) := by omega
    have hne : ¬ (v + 1 = v) := by omega
    simp [mkPermanentDictionary, ensureStore, openDB, upgradeStores,
      hfail, h, hm, hb, hnlt, hne, Except.map]
  · intro hfail
    simp [mkPermanentDictionary, ensureStore, openDB, hfail, Except.map]
  · intro hinit
    simp [PermanentDictionary.set, PermanentDictionary.get,
      PermanentDictionary.delete, PermanentDictionary.clear,
      PermanentDictionary.has, PermanentDictionary.keys,
      PermanentDictionary.values, PermanentDictionary.entries, hinit]

/-- Witness for C7: a blocked upgrade rejects initialization, and `set` and
`get` on that instance fail with the same cause. -/
theorem pd_init_failure_propagates_witness :
    (envBlocked.failOpen = false ∧ envBlocked.existing = some (2, ["other"])
      ∧ "sounds" ∉ ["other"] ∧ envBlocked.blocked = true ∧
      (mkPermanentDictionary envBlocked "sounds").initResult
        = Except.error blockedError) ∧
    (dictFailed.initResult = Except.error blockedError ∧
      dictFailed.set [] "k" JSValue.null TxOutcome.ok
        = ([], Except.error blockedError) ∧
      dictFailed.get [] "k" ErrOutcome.ok = Except.error blockedError) := by
  have h := pd_init_failure_propagates envBlocked "sounds" dictFailed
    blockedError [] "k" JSValue.null TxOutcome.ok ErrOutcome.ok
  have hinit : dictFailed.initResult = Except.error blockedError := by decide
  refine ⟨⟨by decide, by decide, by decide, by decide, ?_⟩, ?_, ?_, ?_⟩
  · exact h.1 2 ["other"] rfl rfl (by decide) rfl
  · exact hinit
  · exact (h.2.2 hinit).1
  · exact (h.2.2 hinit).2.1

/-- C4 counterexample: on an initialized Permanent Store, a transaction
failure during `delete` (and during `clear`) does NOT reject the returned
future — the try/catch swallows it and the future resolves with
`undefined`, the store unchanged.  This refutes the claim that every
mutating operation surfaces per-operation failures as a rejection. -/
theorem pd_delete_swallows_failure_cex :
    PermanentDictionary.delete dictEx [("a", JSValue.str "x")] "a"
        (TxOutcome.txError "QuotaExceededError")
      = ([("a", JSValue.str "x")], Except.ok JSValue.undef) ∧
    PermanentDictionary.clear dictEx [("a", JSValue.str "x")]
        (TxOutcome.txError "QuotaExceededError")
      = ([("a", JSValue.str "x")], Except.ok JSValue.undef) := by
  exact ⟨by decide, by decide⟩

/-- C4 amended: among the mutating operations only `set` surfaces a
per-operation transaction or request failure as a rejected future;
`delete` and `clear` catch the failure and resolve with `undefined`
(leaving the store unchanged, since the transaction aborted). -/
theorem pd_mutation_failure_surfacing (d : PermanentDictionary) (c : Conn)
    (s : ObjectStore) (k : String) (v : JSValue) (e : String)
    (hinit : d.initResult = Except.ok c) (hopen : c.closed = false) :
    d.set s k v (TxOutcome.txError e) = (s, Except.error e) ∧
    d.set s k v (TxOutcome.reqError e) = (s, Except.error e) ∧
    d.delete s k (TxOutcome.txError e) = (s, Except.ok JSValue.undef) ∧
    d.delete s k (TxOutcome.reqError e) = (s, Except.ok JSValue.undef) ∧
    d.clear s (TxOutcome.txError e) = (s, Except.ok JSValue.undef) ∧
    d.clear s (TxOutcome.reqError e) = (s, Except.ok JSValue.undef) := by
  simp [PermanentDictionary.set, PermanentDictionary.delete,
    PermanentDictionary.clear, hinit, setBody, deleteBody, clearBody, hopen]

/-- Witness for the amended C4 at concrete inputs. -/
theorem pd_mutation_failure_surfacing_witness :
    dictEx.initResult = Except.ok connEx ∧ connEx.closed = false ∧
    (dictEx.set [] "k" JSValue.null (TxOutcome.txError "abort")
        = ([], Except.error "abort") ∧
      dictEx.set [] "k" JSValue.null (TxOutcome.reqError "abort")
        = ([], Except.error "abort") ∧
      dictEx.delete [] "k" (TxOutcome.txError "abort")
        = ([], Except.ok JSValue.undef) ∧
      dictEx.delete [] "k" (TxOutcome.reqError "abort")
        = ([], Except.ok JSValue.undef) ∧
      dictEx.clear [] (TxOutcome.txError "abort")
        = ([], Except.ok JSValue.undef) ∧
      dictEx.clear [] (TxOutcome.reqError "abort")
        = ([], Except.ok JSValue.undef)) :=
  ⟨by decide, by decide,
    pd_mutation_failure_surfacing dictEx connEx [] "k" JSValue.null "abort"
      (by decide) (by decide)⟩

/-- C5 counterexample: on an initialized Permanent Store, an internal error
during `has` makes it resolve with `undefined`, not with the boolean
`false`; likewise `keys` resolves with `undefined`, not with an empty
sequence.  This refutes the claimed negative/empty results for the
introspection operations (the non-rejection part of the claim does hold). -/
theorem pd_has_error_not_false_cex :
    PermanentDictionary.has dictEx [] "a" (ErrOutcome.fail "SecurityError")
      = Except.ok JSValue.undef ∧
    PermanentDictionary.has dictEx [] "a" (ErrOutcome.fail "SecurityError")
      ≠ Except.ok (JSValue.bool false) ∧
    PermanentDictionary.keys dictEx [] (ErrOutcome.fail "SecurityError")
      = Except.ok none ∧
    PermanentDictionary.keys dictEx [] (ErrOutcome.fail "SecurityError")
      ≠ Except.ok (some []) := by
  exact ⟨by decide, by decide, by decide, by decide⟩

/-- C5 amended: on an initialized Permanent Store, an internal error never
causes a read/introspection operation to reject; `get` resolves with the
absent sentinel `undefined`, and `has`, `keys`, `values` and `entries`
also resolve with `undefined` (not with `false` or an empty sequence). -/
theorem pd_read_error_resolves_undefined (d : PermanentDictionary)
    (c : Conn) (s : ObjectStore) (k : String) (e : String)
    (hinit : d.initResult = Except.ok c) (hopen : c.closed = false) :
    d.get s k (ErrOutcome.fail e) = Except.ok JSValue.undef ∧
    d.has s k (ErrOutcome.fail e) = Except.ok JSValue.undef ∧
    d.keys s (ErrOutcome.fail e) = Except.ok none ∧
    d.values s (ErrOutcome.fail e) = Except.ok none ∧
    d.entries s (ErrOutcome.fail e) = Except.ok none := by
  simp [PermanentDictionary.get, PermanentDictionary.has,
    PermanentDictionary.keys, PermanentDictionary.values,
    PermanentDictionary.entries, hinit, getBody, hasBody, keysBody,
    valuesBody, entriesBody, hopen]

/-- Witness for the amended C5 at concrete inputs. -/
theorem pd_read_error_resolves_undefined_witness :
    dictEx.initResult = Except.ok connEx ∧ connEx.closed = false ∧
    (dictEx.get [] "a" (ErrOutcome.fail "SecurityError")
        = Except.ok JSValue.undef ∧
      dictEx.has [] "a" (ErrOutcome.fail "SecurityError")
        = Except.ok JSValue.undef ∧
      dictEx.keys [] (ErrOutcome.fail "SecurityError") = Except.ok none ∧
      dictEx.values [] (ErrOutcome.fail "SecurityError") = Except.ok none ∧
      dictEx.entries [] (ErrOutcome.fail "SecurityError")
        = Except.ok none) :=
  ⟨by decide, by decide,
    pd_read_error_resolves_undefined dictEx connEx [] "a" "SecurityError"
      (by decide) (by decide)⟩

/-- C6 counterexample: `undefined` is a storable value, and after
`set("k", undefined)` resolves, `get("k")` resolves with exactly the same
result it gives for a key that was never set — the absent sentinel.  So
the sentinel is NOT distinct from every storable value, refuting the
claim. -/
theorem pd_sentinel_collision_cex :
    (PermanentDictionary.set dictEx [] "k" JSValue.undef TxOutcome.ok).2
      = Except.ok () ∧
    PermanentDictionary.get dictEx
        (PermanentDictionary.set dictEx [] "k" JSValue.undef TxOutcome.ok).1
        "k" ErrOutcome.ok
      = Except.ok JSValue.undef ∧
    PermanentDictionary.get dictEx [] "k" ErrOutcome.ok
      = Except.ok JSValue.undef := by
  exact ⟨by decide, by decide, by decide⟩

/-- C6 amended: `get(k)` resolves either with the stored value or, for an
absent key, with the sentinel `undefined`; but the sentinel is not
distinct from every storable value: for a stored value `v`, the resolved
`get(k)` after `set(k, v)` equals the sentinel exactly when
`v = undefined`. -/
theorem pd_get_sentinel_amended (d : PermanentDictionary) (c : Conn)
    (s : ObjectStore) (k : String) (v : JSValue)
    (hinit : d.initResult = Except.ok c) (hopen : c.closed = false) :
    d.get (d.set s k v TxOutcome.ok).1 k ErrOutcome.ok = Except.ok v ∧
    d.get [] k ErrOutcome.ok = Except.ok JSValue.undef ∧
    (d.get (d.set s k v TxOutcome.ok).1 k ErrOutcome.ok
        = Except.ok JSValue.undef ↔ v = JSValue.undef) := by
  have hget : d.get (d.set s k v TxOutcome.ok).1 k ErrOutcome.ok
      = Except.ok v := by
    simp only [PermanentDictionary.set, PermanentDictionary.get, hinit,
      setBody, getBody, hopen, Bool.false_eq_true, if_false]
    simp only [getRequestResult, lookup_putEntry_self]
    by_cases hv : v = JSValue.undef
    · subst hv; simp
    · simp [hv]
  refine ⟨hget, ?_, ?_⟩
  · simp [PermanentDictionary.get, hinit, getBody, hopen, getRequestResult,
      lookupEntry]
  · rw [hget]
    constructor
    · intro h
      simpa using h
    · intro h
      rw [h]

/-- Witness for the amended C6 at the colliding value `undefined`. -/
theorem pd_get_sentinel_amended_witness :
    dictEx.initResult = Except.ok connEx ∧ connEx.closed = false ∧
    (dictEx.get (dictEx.set [] "k" JSValue.undef TxOutcome.ok).1 "k"
        ErrOutcome.ok = Except.ok JSValue.undef ∧
      dictEx.get [] "k" ErrOutcome.ok = Except.ok JSValue.undef ∧
      (dictEx.get (dictEx.set [] "k" JSValue.undef TxOutcome.ok).1 "k"
          ErrOutcome.ok = Except.ok JSValue.undef ↔
        JSValue.undef = JSValue.undef)) :=
  ⟨by decide, by decide,
    pd_get_sentinel_amended dictEx connEx [] "k" JSValue.undef
      (by decide) (by decide)⟩

/-- C8: `entries()` traverses the full collection via a cursor,
accumulating (key, value) pairs in underlying-store order until exhausted;
after three `set` calls with distinct keys on an empty store, it resolves
with a sequence whose pairs are, as a multiset (hence as a set), exactly
the three inserted pairs. -/
theorem pd_entries_three_sets (d : PermanentDictionary) (c : Conn)
    (k1 k2 k3 : String) (v1 v2 v3 : JSValue)
    (hinit : d.initResult = Except.ok c) (hopen : c.closed = false)
    (h12 : k1 ≠ k2) (h13 : k1 ≠ k3) (h23 : k2 ≠ k3) :
    d.entries (d.set (d.set (d.set [] k1 v1 TxOutcome.ok).1 k2 v2
        TxOutcome.ok).1 k3 v3 TxOutcome.ok).1 ErrOutcome.ok
      = Except.ok (some (cursorCollect (d.set (d.set (d.set [] k1 v1
          TxOutcome.ok).1 k2 v2 TxOutcome.ok).1 k3 v3 TxOutcome.ok).1)) ∧
    List.Perm
      (cursorCollect (d.set (d.set (d.set [] k1 v1 TxOutcome.ok).1 k2 v2
        TxOutcome.ok).1 k3 v3 TxOutcome.ok).1)
      [(k1, v1), (k2, v2), (k3, v3)] := by
  have hset : ∀ (s : ObjectStore) (k : String) (v : JSValue),
      (d.set s k v TxOutcome.ok).1 = putEntry k v s := by
    intro s k v
    simp [PermanentDictionary.set, hinit, setBody, hopen]
  simp only [hset]
  constructor
  · simp [PermanentDictionary.entries, hinit, entriesBody, hopen]
  · rw [cursorCollect_eq]
    have hk2 : k2 ∉ (putEntry k1 v1 []).map Prod.fst := by
      simp [putEntry]
      exact Ne.symm h12
    have hk3 : k3 ∉ (putEntry k2 v2 (putEntry k1 v1 [])).map Prod.fst := by
      intro hmem
      rw [mem_keys_putEntry] at hmem
      simp [putEntry] at hmem
      rcases hmem with h | h
      · exact h23 h.symm
      · exact h13 h.symm
    have p2 := putEntry_perm k2 v2 (putEntry k1 v1 []) hk2
    have p3 := putEntry_perm k3 v3 (putEntry k2 v2 (putEntry k1 v1 [])) hk3
    refine p3.trans ?_
    refine (p2.cons (k3, v3)).trans ?_
    have hrev : ([(k1, v1), (k2, v2), (k3, v3)] :
        List (String × JSValue)).reverse
        = [(k3, v3), (k2, v2), (k1, v1)] := rfl
    exact hrev ▸ List.reverse_perm [(k1, v1), (k2, v2), (k3, v3)]

/-- Witness for C8 at three concrete distinct keys. -/
theorem pd_entries_three_sets_witness :
    dictEx.initResult = Except.ok connEx ∧ connEx.closed = false ∧
    ("a" : String) ≠ "b" ∧ ("a" : String) ≠ "c" ∧ ("b" : String) ≠ "c" ∧
    (dictEx.entries (dictEx.set (dictEx.set (dictEx.set [] "a"
          (JSValue.num 1) TxOutcome.ok).1 "b" (JSValue.num 2)
          TxOutcome.ok).1 "c" (JSValue.num 3) TxOutcome.ok).1 ErrOutcome.ok
        = Except.ok (some (cursorCollect (dictEx.set (dictEx.set
            (dictEx.set [] "a" (JSValue.num 1) TxOutcome.ok).1 "b"
            (JSValue.num 2) TxOutcome.ok).1 "c" (JSValue.num 3)
            TxOutcome.ok).1)) ∧
      List.Perm
        (cursorCollect (dictEx.set (dictEx.set (dictEx.set [] "a"
          (JSValue.num 1) TxOutcome.ok).1 "b" (JSValue.num 2)
          TxOutcome.ok).1 "c" (JSValue.num 3) TxOutcome.ok).1)
        [("a", JSValue.num 1), ("b", JSValue.num 2), ("c", JSValue.num 3)]) :=
  ⟨by decide, by decide, by decide, by decide, by decide,
    pd_entries_three_sets dictEx connEx "a" "b" "c" (JSValue.num 1)
      (JSValue.num 2) (JSValue.num 3) (by decide) (by decide) (by decide)
      (by decide) (by decide)⟩

/-- C9: on a stale-version notification the `onversionchange` handler
closes the connection; afterwards no database operation is issued through
it by the holding instance — every attempted transaction fails at
creation, so no operation reads the store and no mutating operation
changes the store state (`set` rejects with the closed-connection error;
the operations whose bodies sit in a try/catch resolve with their caught
defaults). -/
theorem pd_versionchange_closes (c : Conn) (s : ObjectStore) (k : String)
    (v : JSValue) (out : TxOutcome) (rout : ErrOutcome) :
    (onVersionChange c).closed = true ∧
    setBody (onVersionChange c) s k v out
      = (s, Except.error closedConnError) ∧
    deleteBody (onVersionChange c) s k out = (s, Except.ok JSValue.undef) ∧
    clearBody (onVersionChange c) s out = (s, Except.ok JSValue.undef) ∧
    getBody (onVersionChange c) s k rout = Except.ok JSValue.undef ∧
    hasBody (onVersionChange c) s k rout = Except.ok JSValue.undef ∧
    keysBody (onVersionChange c) s rout = Except.ok none ∧
    valuesBody (onVersionChange c) s rout = Except.ok none ∧
    entriesBody (onVersionChange c) s rout = Except.ok none := by
  simp [onVersionChange, setBody, deleteBody, clearBody, getBody, hasBody,
    keysBody, valuesBody, entriesBody]

/-- C10: `has` and `get` can disagree on presence: after
`set(k, undefined)` resolves, `has(k)` resolves `true` (it queries the key
index) while `get(k)` resolves with `undefined` — the very result it gives
for an absent key — so a stored entry has `has(k) = true` and
`get(k) = absent sentinel` simultaneously. -/
theorem pd_has_get_disagree (d : PermanentDictionary) (c : Conn)
    (s : ObjectStore) (k : String)
    (hinit : d.initResult = Except.ok c) (hopen : c.closed = false) :
    d.has (d.set s k JSValue.undef TxOutcome.ok).1 k ErrOutcome.ok
      = Except.ok (JSValue.bool true) ∧
    d.get (d.set s k JSValue.undef TxOutcome.ok).1 k ErrOutcome.ok
      = Except.ok JSValue.undef ∧
    d.get [] k ErrOutcome.ok = Except.ok JSValue.undef := by
  refine ⟨?_, ?_, ?_⟩
  · simp [PermanentDictionary.set, PermanentDictionary.has, hinit, setBody,
      hasBody, hopen, getKeyRequestResult, lookup_putEntry_self]
  · simp [PermanentDictionary.set, PermanentDictionary.get, hinit, setBody,
      getBody, hopen, getRequestResult, lookup_putEntry_self]
  · simp [PermanentDictionary.get, hinit, getBody, hopen, getRequestResult,
      lookupEntry]

/-- Witness for C10 at concrete inputs. -/
theorem pd_has_get_disagree_witness :
    dictEx.initResult = Except.ok connEx ∧ connEx.closed = false ∧
    (dictEx.has (dictEx.set [] "k" JSValue.undef TxOutcome.ok).1 "k"
        ErrOutcome.ok = Except.ok (JSValue.bool true) ∧
      dictEx.get (dictEx.set [] "k" JSValue.undef TxOutcome.ok).1 "k"
        ErrOutcome.ok = Except.ok JSValue.undef ∧
      dictEx.get [] "k" ErrOutcome.ok = Except.ok JSValue.undef) :=
  ⟨by decide, by decide,
    pd_has_get_disagree dictEx connEx [] "k" (by decide) (by decide)⟩
